import Mathlib

/-!
Verification development for the reverse_exporter repository.

The definitions below are a shallow embedding of the Go sources:
  * `src/unnamed/part_000` (package metricProxy): `execProxy` (the
    on-demand coalescing subprocess proxy) and `execCachingProxy` (the
    periodic caching subprocess proxy);
  * `src/metricproxy/interface.go`: `NewMetricReverseProxy`, the
    endpoint constructor.

Subprocess and decoder outcomes (pipe open, process start, metric
decoding, kill) are inputs of an environment record `ExecEnv`: the code
under verification only branches on whether each stage produced an
error, never on the internals of `os/exec` or of the expfmt decoder
(`decodeMetrics` itself is defined outside the provided sources).
Go `error` interface values are modelled as `Option GoError` (`none` is
the nil interface); invoking the `Error()` method on a nil interface
value is a nil-pointer dereference, modelled as `GoPanic.nilDereference`.
-/

/-- Go error interface value (non-nil case): identified by its message. -/
inductive GoError where
  | mk (msg : String)
deriving DecidableEq

/-- Runtime panics that the embedded code can raise. -/
inductive GoPanic where
  | nilDereference
deriving DecidableEq

/-- Message of a non-nil Go error. -/
def GoError.msg : GoError → String
  | .mk m => m

/-- Calling `e.Error()` on a Go `error` interface value: a nil interface
receiver panics with a nil-pointer dereference. -/
def goErrorMessage : Option GoError → Except GoPanic String
  | none => .error .nilDereference
  | some e => .ok e.msg

/-- The error `ErrScrapeTimeoutBeforeExecFinished` of part_000. -/
def errScrapeTimeoutBeforeExecFinished : GoError :=
  .mk "scrape timed out before exec finished"

/-- The error `ErrNameFieldOverrideAttempted` of interface.go. -/
def errNameFieldOverrideAttempted : GoError :=
  .mk "cannot override name field with additional labels"

/-- The error `ErrUnknownExporterType` of interface.go. -/
def errUnknownExporterType : GoError :=
  .mk "cannot configure unknown exporter type"

/-- The error `ErrExporterNameUsedTwice` of interface.go. -/
def errExporterNameUsedTwice : GoError :=
  .mk "cannot use the same exporter name twice for one endpoint"

/-- A decoded `dto.MetricFamily`: the claims only compare families for
identity, so the payload is kept abstract as its serialized text. -/
structure MetricFamily where
  name : String
  payload : String
deriving DecidableEq

/-- The `execProxyScrapeResult` struct of part_000: decoded families plus
an error allowing waiters to detect failures without timeouts.
`mfs = none` models the nil slice. -/
structure execProxyScrapeResult where
  mfs : Option (List MetricFamily)
  err : Option GoError
deriving DecidableEq

/-- Outcomes of the externally visible stages of one subprocess
execution, as observed by `doExec` and by `execCachingProxy.execer`:
the result of `cmd.StdoutPipe()`, of `cmd.Start()`, the pair
`(mfs, derr)` returned by `decodeMetrics`, and the result of
`cmd.Process.Kill()`. -/
structure ExecEnv where
  pipeErr : Option GoError
  startErr : Option GoError
  mfs : List MetricFamily
  derr : Option GoError
  killErr : Option GoError
deriving DecidableEq

/-- Observable events of one `doExec` run, in program order. -/
inductive ExecEvent where
  | pipeOpen
  | start
  | decode
  | kill
deriving DecidableEq

/-- The `execProxy.doExec` method of part_000 (lines 65-114), returning
the emitted event trace together with either the `execProxyScrapeResult`
it returns or the panic it raises.  Control flow mirrors the source:
pipe-open failure and start failure return early (no kill); otherwise
`decodeMetrics` runs and the subprocess is killed unconditionally; a kill
failure stores the kill error in the result but logs `derr.Error()`
(the decode error), which dereferences a nil interface when decoding
succeeded; a decode failure stores the decode error; otherwise the
decoded families are stored with a nil error. -/
def doExec (env : ExecEnv) : List ExecEvent × Except GoPanic execProxyScrapeResult :=
  match env.pipeErr with
  | some perr => ([.pipeOpen], .ok { mfs := none, err := some perr })
  | none =>
    match env.startErr with
    | some serr => ([.pipeOpen, .start], .ok { mfs := none, err := some serr })
    | none =>
      match env.killErr with
      | some kerr =>
        -- result.err = err; ep.log.With("error", derr.Error()) ...
        match goErrorMessage env.derr with
        | .error p => ([.pipeOpen, .start, .decode, .kill], .error p)
        | .ok _ => ([.pipeOpen, .start, .decode, .kill], .ok { mfs := none, err := some kerr })
      | none =>
        match env.derr with
        | some derr => ([.pipeOpen, .start, .decode, .kill], .ok { mfs := none, err := some derr })
        | none => ([.pipeOpen, .start, .decode, .kill], .ok { mfs := some env.mfs, err := none })

/-- State of the `execCachingProxy` of part_000 that the claims observe:
the cached family list `lastResult`, the identity (heap address) of the
slice currently stored there, a fresh-address counter for new
allocations made by `decodeMetrics`, and whether `resultReadyCh` has
been closed (`ready`). -/
structure CachedState where
  lastResult : List MetricFamily
  lastResultAddr : Nat
  nextAddr : Nat
  ready : Bool
deriving DecidableEq

/-- One iteration of the `execCachingProxy.execer` loop of part_000
(lines 214-264), after the interval wait.  Pipe-open and start failures
`continue` with the state unchanged; otherwise the subprocess is killed
after decoding; a kill failure logs `derr.Error()` (panicking on a nil
decode error) and falls through; a decode failure continues with the
state unchanged; otherwise the freshly decoded list is installed under
the writer lock and the readiness channel is closed if still open. -/
def execCachingExecer (s : CachedState) (env : ExecEnv) : Except GoPanic CachedState :=
  match env.pipeErr with
  | some _ => .ok s
  | none =>
    match env.startErr with
    | some _ => .ok s
    | none =>
      match env.killErr with
      | some _ =>
        match goErrorMessage env.derr with
        | .error p => .error p
        | .ok _ =>
          match env.derr with
          | some _ => .ok s
          | none =>
            .ok { lastResult := env.mfs, lastResultAddr := s.nextAddr,
                  nextAddr := s.nextAddr + 1, ready := true }
      | none =>
        match env.derr with
        | some _ => .ok s
        | none =>
          .ok { lastResult := env.mfs, lastResultAddr := s.nextAddr,
                nextAddr := s.nextAddr + 1, ready := true }

/-- Whether every stage of `env` succeeded. -/
def execFullSuccess (env : ExecEnv) : Bool :=
  env.pipeErr.isNone && env.startErr.isNone && env.derr.isNone && env.killErr.isNone

/-- The `execCachingProxy.Scrape` method of part_000 (lines 268-287).
Its `select` waits on the readiness channel and on the caller's context:
`ctxDone` says whether the context is already cancelled, and `pick`
resolves the choice when both channels are ready (a closed readiness
channel is always ready).  `none` models the call still blocking.  The
returned triple carries the address of the returned slice (`none` for
the freshly made empty slice of the timeout branch), the family list,
and the returned error; the cache branch returns `ecp.lastResult`
itself, performing no allocation. -/
def execCachingScrape (s : CachedState) (ctxDone pick : Bool) :
    Option (Option Nat × List MetricFamily × Option GoError) :=
  if s.ready && ctxDone then
    if pick then some (some s.lastResultAddr, s.lastResult, none)
    else some (none, [], some errScrapeTimeoutBeforeExecFinished)
  else if s.ready then some (some s.lastResultAddr, s.lastResult, none)
  else if ctxDone then some (none, [], some errScrapeTimeoutBeforeExecFinished)
  else none

/-- Modelled from the spec: the constant `reverseProxyNameLabel` is
defined outside the provided sources; the spec names it as the reserved
label key `exported_instance`. -/
def reverseProxyNameLabel : String := "exported_instance"

/-- The common fields of every exporter configuration (config package,
outside the provided sources; fields as used by interface.go and
described by the spec's BackendSpec). -/
structure BaseExporterCfg where
  name : String
  noRewrite : Bool
  labels : List (String × String)
deriving DecidableEq

/-- The exporter configuration variants switched over by
`NewMetricReverseProxy` (interface.go lines 53-73); `unknown` is any
other configuration item, which hits the `default` branch. -/
inductive ExporterConfig where
  | file (base : BaseExporterCfg) (path : String)
  | exec (base : BaseExporterCfg) (command : String) (args : List String)
  | execCaching (base : BaseExporterCfg) (command : String) (args : List String) (execInterval : Nat)
  | http (base : BaseExporterCfg) (address : String) (timeout : Nat) (forwardURLParams : Bool)
  | unknown (base : BaseExporterCfg)
deriving DecidableEq

/-- The `GetBaseExporter()` accessor. -/
def ExporterConfig.base : ExporterConfig → BaseExporterCfg
  | .file b _ => b
  | .exec b _ _ => b
  | .execCaching b _ _ _ => b
  | .http b _ _ _ => b
  | .unknown b => b

/-- Whether the configuration item hits the `default` branch of the type
switch. -/
def ExporterConfig.isUnknown : ExporterConfig → Bool
  | .unknown _ => true
  | _ => false

/-- Authentication mode of an endpoint (config package). -/
inductive AuthType where
  | none
  | basic
  | other (s : String)
deriving DecidableEq

/-- The `config.ReverseExporter` record as consumed by
`NewMetricReverseProxy`. -/
structure ReverseExporterCfg where
  path : String
  authType : AuthType
  htPasswdFile : String
  exporters : List ExporterConfig
deriving DecidableEq

/-- The `ReverseProxyEndpoint` assembled by `NewMetricReverseProxy`:
the metric path, one label set per shimmed backend (in declaration
order), and whether the handler was wrapped with basic auth. -/
structure ReverseProxyEndpoint where
  metricPath : String
  backendLabels : List (List (String × String))
  basicAuth : Bool
deriving DecidableEq

/-- The backend loop of `NewMetricReverseProxy` (interface.go lines
47-109), processing exporters in order while accumulating used names.
Per exporter: the type switch fails on an unknown item; then name reuse
is rejected; then (unless `no_rewrite`) the reverse-proxy name label is
set; the additional labels are copied, rejecting the reserved key.
Label-map iteration order is immaterial: the reserved key is rejected
if and only if it is present. -/
def addBackends : List ExporterConfig → List String →
    Except GoError (List (List (String × String)))
  | [], _ => .ok []
  | e :: rest, used =>
    if e.isUnknown then .error errUnknownExporterType
    else if e.base.name ∈ used then .error errExporterNameUsedTwice
    else if reverseProxyNameLabel ∈ e.base.labels.map Prod.fst then
      .error errNameFieldOverrideAttempted
    else
      match addBackends rest (e.base.name :: used) with
      | .error err => .error err
      | .ok bs =>
        .ok (((if e.base.noRewrite then [] else [(reverseProxyNameLabel, e.base.name)])
              ++ e.base.labels) :: bs)

/-- The `NewMetricReverseProxy` function of interface.go (lines 34-132).
The auth switch wraps the handler for `basic`, leaves it untouched for
`none`, and for any other value only logs (it does not fail). -/
def NewMetricReverseProxy (cfg : ReverseExporterCfg) :
    Except GoError ReverseProxyEndpoint :=
  match addBackends cfg.exporters [] with
  | .error err => .error err
  | .ok bs => .ok { metricPath := cfg.path, backendLabels := bs,
                    basicAuth := cfg.authType = .basic }

/-- Phase of one `execProxy.Scrape` caller (part_000 lines 148-174).
After registering its channel in `waitingScrapes` it is `registered`;
after its non-blocking send on `execReqCh` it is `waiting` inside the
final `select`; `done r` records the result received from the worker;
`cancelled` records the context-cancellation branch having completed
(waiter deleted, `ErrScrapeTimeoutBeforeExecFinished` returned). -/
inductive CallerPhase where
  | registered
  | waiting
  | done (r : execProxyScrapeResult)
  | cancelled
deriving DecidableEq

/-- Phase of the single `execProxy.execer` worker goroutine (part_000
lines 116-144).  `parked` is blocked at `<-reqCh`; `woken` has received
a signal and is about to lock and inspect `waitingScrapes`; `executing`
is inside `doExec`; `dispatching r` holds the mutex and is delivering
`r` to every waiter; `looping` is between finishing an iteration (or a
spurious wake) and returning to `<-reqCh`. -/
inductive WorkerPhase where
  | parked
  | woken
  | executing
  | dispatching (r : execProxyScrapeResult)
  | looping
deriving DecidableEq

/-- Global state of one `execProxy`: the phase of each caller (an
association list keyed by caller id), the key set of `waitingScrapes`
(in registration order), the worker phase, and how many subprocess
executions have completed. -/
structure ProxyState where
  callers : List (Nat × CallerPhase)
  waiters : List Nat
  worker : WorkerPhase
  execCount : Nat
deriving DecidableEq

/-- Phase of caller `i`, if it has started a Scrape. -/
def phaseOf (s : ProxyState) (i : Nat) : Option CallerPhase :=
  s.callers.lookup i

/-- Update one caller's phase. -/
def setPhase (cs : List (Nat × CallerPhase)) (i : Nat) (p : CallerPhase) :
    List (Nat × CallerPhase) :=
  cs.map (fun c => (c.1, if c.1 = i then p else c.2))

/-- Deliver result `r` to every caller in `ws` (the worker's broadcast
loop over `waitingScrapes`, part_000 lines 137-139). -/
def deliverAll (cs : List (Nat × CallerPhase)) (ws : List Nat)
    (r : execProxyScrapeResult) : List (Nat × CallerPhase) :=
  cs.map (fun c => (c.1, if c.1 ∈ ws then .done r else c.2))

/-- Whether a waiter is able to take the worker's unbuffered channel
send: it is registered (its receive is the next synchronisation it
reaches) or already sitting in its `select`. -/
def canDeliver : Option CallerPhase → Bool
  | some .registered => true
  | some .waiting => true
  | _ => false

/-- The value the caller's `Scrape` invocation returns once its phase is
terminal: the received result's fields, or `(nil,
ErrScrapeTimeoutBeforeExecFinished)` on the cancellation branch. -/
def callerReturn : CallerPhase → Option (Option (List MetricFamily) × Option GoError)
  | .done r => some (r.mfs, r.err)
  | .cancelled => some (none, some errScrapeTimeoutBeforeExecFinished)
  | _ => none

/-- Atomic steps of the execProxy system, interleaving the callers and
the worker. -/
inductive PLabel where
  | startScrape (i : Nat)
  | signal (i : Nat)
  | wakeCheck
  | execFinish (env : ExecEnv)
  | dispatch
  | park
  | cancel (i : Nat)

/-- Small-step semantics of `execProxy`.  Each step is one atomic region
of the source; regions that hold `waitingMtx` (registration, the
waiter-count check, the broadcast, deregistration) are single steps, and
none of them can run while the worker holds the mutex in `dispatching`.

  * `startScrape i`: lines 150-153, a fresh caller locks the mutex and
    registers its channel in `waitingScrapes`.
  * `signal i`: lines 156-161, the caller's non-blocking send on the
    unbuffered `execReqCh`.  It synchronises (waking the worker) exactly
    when the worker is parked at `<-reqCh`; in every other worker phase
    the `default` branch drops the nudge.
  * `wakeCheck`: lines 119-128, the woken worker locks, tests whether
    any waiters exist, and either proceeds to execute or loops back.
  * `execFinish env`: line 131, `doExec` returns (a panic would kill
    the program, so no step exists for a panicking environment).
  * `dispatch`: lines 134-142, the worker locks, sends the result to
    every waiting channel, replaces the map with an empty one, and
    unlocks.  Each send on an unbuffered channel needs its receiver, so
    the step is enabled only when every registered waiter can receive.
  * `park`: the worker reaches `<-reqCh` again.
  * `cancel i`: lines 167-172, a waiting caller whose context is done
    locks, deletes its channel, unlocks and returns the timeout error. -/
def execProxyStep (s : ProxyState) : PLabel → Option ProxyState
  | .startScrape i =>
    match s.worker with
    | .dispatching _ => none
    | _ =>
      if (phaseOf s i).isSome then none
      else some { s with callers := (i, .registered) :: s.callers,
                         waiters := s.waiters ++ [i] }
  | .signal i =>
    if phaseOf s i = some .registered then
      some { s with callers := setPhase s.callers i .waiting,
                    worker := if s.worker = .parked then .woken else s.worker }
    else none
  | .wakeCheck =>
    if s.worker = .woken then
      some { s with worker := if s.waiters.isEmpty then .looping else .executing }
    else none
  | .execFinish env =>
    if s.worker = .executing then
      match (doExec env).2 with
      | .ok r => some { s with worker := .dispatching r, execCount := s.execCount + 1 }
      | .error _ => none
    else none
  | .dispatch =>
    match s.worker with
    | .dispatching r =>
      if s.waiters.all (fun i => canDeliver (phaseOf s i)) then
        some { s with callers := deliverAll s.callers s.waiters r,
                      waiters := [], worker := .looping }
      else none
    | _ => none
  | .park =>
    if s.worker = .looping then some { s with worker := .parked } else none
  | .cancel i =>
    match s.worker with
    | .dispatching _ => none
    | _ =>
      if phaseOf s i = some .waiting then
        some { s with callers := setPhase s.callers i .cancelled,
                      waiters := s.waiters.erase i }
      else none

/-- Result of caller `i`'s Scrape invocation in state `s`, when the
caller has reached a terminal phase. -/
def callerReturnOf (s : ProxyState) (i : Nat) :
    Option (Option (List MetricFamily) × Option GoError) :=
  (phaseOf s i).bind callerReturn

/-- A sample decoded family used by the concrete scenarios below. -/
def mfUp : MetricFamily := { name := "up", payload := "up 1" }

/-- Fully successful execution environment. -/
def envAllOk : ExecEnv :=
  { pipeErr := none, startErr := none, mfs := [mfUp], derr := none, killErr := none }

/-- The result `doExec` produces under `envAllOk`. -/
def resAllOk : execProxyScrapeResult := { mfs := some [mfUp], err := none }

/-- Environment where decoding succeeds but `cmd.Process.Kill()` fails. -/
def envKillFails : ExecEnv :=
  { pipeErr := none, startErr := none, mfs := [mfUp], derr := none,
    killErr := some (.mk "operation not permitted") }

/-- States of the lost-wakeup scenario: caller 1 is served by one full
worker iteration; caller 2 registers and nudges while the worker is
still between its dispatch and its return to `<-reqCh`. -/
def lw0 : ProxyState := { callers := [], waiters := [], worker := .parked, execCount := 0 }

def lw1 : ProxyState :=
  { callers := [(1, .registered)], waiters := [1], worker := .parked, execCount := 0 }

def lw2 : ProxyState :=
  { callers := [(1, .waiting)], waiters := [1], worker := .woken, execCount := 0 }

def lw3 : ProxyState :=
  { callers := [(1, .waiting)], waiters := [1], worker := .executing, execCount := 0 }

def lw4 : ProxyState :=
  { callers := [(1, .waiting)], waiters := [1], worker := .dispatching resAllOk, execCount := 1 }

def lw5 : ProxyState :=
  { callers := [(1, .done resAllOk)], waiters := [], worker := .looping, execCount := 1 }

def lw6 : ProxyState :=
  { callers := [(2, .registered), (1, .done resAllOk)], waiters := [2],
    worker := .looping, execCount := 1 }

def lw7 : ProxyState :=
  { callers := [(2, .waiting), (1, .done resAllOk)], waiters := [2],
    worker := .looping, execCount := 1 }

def lw8 : ProxyState :=
  { callers := [(2, .waiting), (1, .done resAllOk)], waiters := [2],
    worker := .parked, execCount := 1 }

/-- States of a concrete coalescing scenario: callers 1 and 2 are both
registered and waiting when the worker wakes, and one execution serves
both. -/
def cw0 : ProxyState :=
  { callers := [(1, .waiting), (2, .waiting)], waiters := [1, 2],
    worker := .woken, execCount := 0 }

def cw1 : ProxyState :=
  { callers := [(1, .waiting), (2, .waiting)], waiters := [1, 2],
    worker := .executing, execCount := 0 }

def cw2 : ProxyState :=
  { callers := [(1, .waiting), (2, .waiting)], waiters := [1, 2],
    worker := .dispatching resAllOk, execCount := 1 }

def cw3 : ProxyState :=
  { callers := [(1, .done resAllOk), (2, .done resAllOk)], waiters := [],
    worker := .looping, execCount := 1 }

/-- A concrete pre-cancellation state: caller 5 is the sole waiter,
sitting in its `select` while the worker is parked. -/
def cancelState : ProxyState :=
  { callers := [(5, .waiting)], waiters := [5], worker := .parked, execCount := 3 }

/-- Environment where `cmd.Process.Kill()` fails while the decoder also
failed (used to contrast the two kill-failure modes). -/
def envKillFailsDecodeFails : ExecEnv :=
  { pipeErr := none, startErr := none, mfs := [],
    derr := some (.mk "text format parsing error"),
    killErr := some (.mk "os: process already released") }

/-- Environment where decoding succeeds (even with empty output) and the
kill fails; exercises the caching worker's kill-failure logging. -/
def envKillFailsB : ExecEnv :=
  { pipeErr := none, startErr := none, mfs := [], derr := none,
    killErr := some (.mk "kill: process state unknown") }

/-- Environment whose stdout-pipe open fails. -/
def envPipeFails : ExecEnv :=
  { pipeErr := some (.mk "pipe: too many open files"), startErr := none,
    mfs := [], derr := none, killErr := none }

/-- A caching-proxy state before any successful execution. -/
def cacheBefore : CachedState :=
  { lastResult := [], lastResultAddr := 0, nextAddr := 1, ready := false }

/-- A ready caching-proxy state whose execer already ran. -/
def cacheReadyB : CachedState :=
  { lastResult := [mfUp], lastResultAddr := 0, nextAddr := 1, ready := true }

/-- A ready caching-proxy state serving a cached generation at
address 7; the next allocation would receive address 8. -/
def sharedCache : CachedState :=
  { lastResult := [mfUp], lastResultAddr := 7, nextAddr := 8, ready := true }

/-- A not-yet-ready caching-proxy state. -/
def notReadyCache : CachedState :=
  { lastResult := [], lastResultAddr := 0, nextAddr := 0, ready := false }

/-- A ready caching-proxy state used by the readiness witness. -/
def readyCache : CachedState :=
  { lastResult := [mfUp], lastResultAddr := 4, nextAddr := 5, ready := true }

/-- Whether endpoint construction failed with a configuration error. -/
def isConfigError : Except GoError ReverseProxyEndpoint → Bool
  | .error _ => true
  | .ok _ => false

/-- Endpoint configuration whose only backend suppresses the name label
(`no_rewrite = true`) yet lists the reserved key among its additional
labels. -/
def cfgReserved : ReverseExporterCfg :=
  { path := "/metrics", authType := .none, htPasswdFile := "",
    exporters := [.exec { name := "node", noRewrite := true,
                          labels := [("exported_instance", "x")] }
                    "/usr/bin/exporter" []] }

/-- Endpoint configuration whose only backend is of an unknown type and
also lists the reserved key among its additional labels. -/
def cfgReservedUnknown : ReverseExporterCfg :=
  { path := "/metrics", authType := .none, htPasswdFile := "",
    exporters := [.unknown { name := "a", noRewrite := false,
                             labels := [("exported_instance", "x")] }] }

/-- Endpoint configuration with two backends of the same name. -/
def cfgDupName : ReverseExporterCfg :=
  { path := "/metrics", authType := .none, htPasswdFile := "",
    exporters := [.exec { name := "a", noRewrite := false, labels := [] } "c" [],
                  .exec { name := "a", noRewrite := false, labels := [] } "c" []] }

/-- Endpoint configuration with pairwise-distinct backend names. -/
def cfgOkNames : ReverseExporterCfg :=
  { path := "/metrics", authType := .basic, htPasswdFile := "/etc/htpasswd",
    exporters := [.exec { name := "a", noRewrite := false, labels := [] } "c" [],
                  .http { name := "b", noRewrite := false,
                          labels := [("env", "prod")] } "http://h:9100/metrics" 5 true] }

/-- Endpoint configuration where backends "b" share one name but an
earlier backend already carries the reserved label key. -/
def cfgDupPreempted : ReverseExporterCfg :=
  { path := "/metrics", authType := .none, htPasswdFile := "",
    exporters := [.exec { name := "a", noRewrite := false,
                          labels := [("exported_instance", "v")] } "c" [],
                  .exec { name := "b", noRewrite := false, labels := [] } "c" [],
                  .exec { name := "b", noRewrite := false, labels := [] } "c" []] }

deriving instance DecidableEq for Except

/-- Run a sequence of steps, failing if any step is disabled. -/
def runLabels (s : ProxyState) : List PLabel → Option ProxyState
  | [] => some s
  | l :: ls => (execProxyStep s l).bind (fun s2 => runLabels s2 ls)

/-- Key-preserving phase maps leave lookups at other keys unchanged and
rewrite the value found at the given key. -/
theorem lookup_keymap (cs : List (Nat × CallerPhase)) (g : Nat → CallerPhase → CallerPhase)
    (i : Nat) :
    List.lookup i (cs.map (fun c => (c.1, g c.1 c.2))) = (List.lookup i cs).map (g i) := by
  induction cs with
  | nil => rfl
  | cons hd tl ih =>
    by_cases h : i = hd.1
    · subst h
      simp [List.lookup]
    · have hb : (i == hd.1) = false := beq_false_of_ne h
      simp [List.lookup, hb, ih]

theorem lookup_setPhase_self (cs : List (Nat × CallerPhase)) (i : Nat) (p : CallerPhase) :
    List.lookup i (setPhase cs i p) = (List.lookup i cs).map (fun _ => p) := by
  have := lookup_keymap cs (fun j v => if j = i then p else v) i
  simpa [setPhase] using this

theorem lookup_setPhase_ne (cs : List (Nat × CallerPhase)) (i k : Nat) (p : CallerPhase)
    (h : k ≠ i) :
    List.lookup k (setPhase cs i p) = List.lookup k cs := by
  have := lookup_keymap cs (fun j v => if j = i then p else v) k
  simp only [setPhase]
  rw [this]
  cases hk : List.lookup k cs with
  | none => rfl
  | some v => simp [h]

theorem lookup_deliverAll_mem (cs : List (Nat × CallerPhase)) (ws : List Nat)
    (r : execProxyScrapeResult) (i : Nat) (h : i ∈ ws) :
    List.lookup i (deliverAll cs ws r) = (List.lookup i cs).map (fun _ => .done r) := by
  have := lookup_keymap cs (fun j v => if j ∈ ws then .done r else v) i
  simp only [deliverAll]
  rw [this]
  cases hk : List.lookup i cs with
  | none => rfl
  | some v => simp [h]

theorem canDeliver_isSome {o : Option CallerPhase} (h : canDeliver o = true) :
    o.isSome = true := by
  cases o with
  | none => simp [canDeliver] at h
  | some p => rfl

/-- Claim C1: for the exec-on-demand backend, all Scrape callers whose
waiter registrations precede one worker wake (they are in the waiter set
when the worker wakes) share exactly one subprocess invocation during
that iteration, and every one of them receives the identical decoded
`execProxyScrapeResult` — the one result of that single execution. -/
theorem execProxy_coalesces (s₀ s₁ s₂ s₃ : ProxyState) (env : ExecEnv)
    (r : execProxyScrapeResult) (i : Nat)
    (h1 : execProxyStep s₀ .wakeCheck = some s₁)
    (h2 : execProxyStep s₁ (.execFinish env) = some s₂)
    (h3 : execProxyStep s₂ .dispatch = some s₃)
    (hr : (doExec env).2 = .ok r)
    (hi : i ∈ s₀.waiters) :
    s₃.execCount = s₀.execCount + 1 ∧ phaseOf s₃ i = some (.done r) ∧ s₃.waiters = [] := by
  by_cases hw : s₀.worker = WorkerPhase.woken
  · have hne : s₀.waiters ≠ [] := List.ne_nil_of_mem hi
    have hE : s₀.waiters.isEmpty = false := by
      cases hl : s₀.waiters with
      | nil => exact absurd hl hne
      | cons a t => rfl
    simp only [execProxyStep, hw, if_true, hE] at h1
    simp only [Bool.false_eq_true, if_false, Option.some.injEq] at h1
    subst h1
    simp only [execProxyStep] at h2
    rw [hr] at h2
    simp only [if_true, Option.some.injEq] at h2
    subst h2
    simp only [execProxyStep] at h3
    by_cases hg : (s₀.waiters.all fun k =>
        canDeliver (List.lookup k s₀.callers)) = true
    · simp only [phaseOf, hg, if_true, Option.some.injEq] at h3
      subst h3
      refine ⟨rfl, ?_, rfl⟩
      have hcd : canDeliver (List.lookup i s₀.callers) = true := by
        have := List.all_eq_true.mp hg
        exact this i hi
      have hsome := canDeliver_isSome hcd
      simp only [phaseOf]
      rw [lookup_deliverAll_mem s₀.callers s₀.waiters r i hi]
      cases hx : List.lookup i s₀.callers with
      | none => rw [hx] at hsome; cases hsome
      | some p => rfl
    · simp only [phaseOf] at h3
      rw [if_neg hg] at h3
      cases h3
  · simp only [execProxyStep, hw, if_false] at h1
    cases h1

/-- Witness for C1: a concrete wake with callers 1 and 2 registered
runs one execution and delivers the same decoded result to caller 1
(and, symmetrically, caller 2). -/
theorem execProxy_coalesces_witness :
    cw3.execCount = cw0.execCount + 1 ∧ phaseOf cw3 1 = some (.done resAllOk)
      ∧ cw3.waiters = [] :=
  execProxy_coalesces cw0 cw1 cw2 cw3 envAllOk resAllOk 1
    (by decide) (by decide) (by decide) rfl (by decide)

/-- Helper: the explicit post-states of the cancellation step and of the
recovery trace that serves a subsequent Scrape call. -/
theorem execProxy_cancel_trace
    (s : ProxyState) (i j : Nat) (env : ExecEnv) (r : execProxyScrapeResult)
    (hpark : s.worker = .parked)
    (hw : s.waiters = [i])
    (hpi : phaseOf s i = some .waiting)
    (hj : phaseOf s j = none)
    (hr : (doExec env).2 = .ok r) :
    ∃ s' s₁ s₂ s₃ s₄ s₅,
      execProxyStep s (.cancel i) = some s'
      ∧ i ∉ s'.waiters
      ∧ callerReturnOf s' i = some (none, some errScrapeTimeoutBeforeExecFinished)
      ∧ execProxyStep s' (.startScrape j) = some s₁
      ∧ execProxyStep s₁ (.signal j) = some s₂
      ∧ execProxyStep s₂ .wakeCheck = some s₃
      ∧ execProxyStep s₃ (.execFinish env) = some s₄
      ∧ execProxyStep s₄ .dispatch = some s₅
      ∧ callerReturnOf s₅ j = some (r.mfs, r.err) := by
  have hij : j ≠ i := by
    intro h
    rw [h, hpi] at hj
    cases hj
  refine ⟨{ s with callers := setPhase s.callers i .cancelled, waiters := [] },
    { s with callers := (j, .registered) :: setPhase s.callers i .cancelled,
             waiters := [j] },
    { s with callers := setPhase ((j, .registered) :: setPhase s.callers i .cancelled)
                          j .waiting,
             waiters := [j], worker := .woken },
    { s with callers := setPhase ((j, .registered) :: setPhase s.callers i .cancelled)
                          j .waiting,
             waiters := [j], worker := .executing },
    { s with callers := setPhase ((j, .registered) :: setPhase s.callers i .cancelled)
                          j .waiting,
             waiters := [j], worker := .dispatching r, execCount := s.execCount + 1 },
    { s with callers := deliverAll
               (setPhase ((j, .registered) :: setPhase s.callers i .cancelled) j .waiting)
               [j] r,
             waiters := [], worker := .looping, execCount := s.execCount + 1 },
    ?_, ?_, ?_, ?_, ?_, ?_, ?_, ?_, ?_⟩
  · simp [execProxyStep, hpark, hpi, hw]
  · simp
  · simp only [callerReturnOf, phaseOf]
    rw [lookup_setPhase_self]
    simp only [phaseOf] at hpi
    rw [hpi]
    rfl
  · have hj' : List.lookup j (setPhase s.callers i .cancelled) = none := by
      rw [lookup_setPhase_ne _ _ _ _ hij]
      exact hj
    simp [execProxyStep, hpark, phaseOf, hj']
  · simp [execProxyStep, phaseOf, List.lookup, hpark]
  · simp [execProxyStep]
  · simp only [execProxyStep]
    rw [hr]
    simp
  · have hcd : List.lookup j
        (setPhase ((j, .registered) :: setPhase s.callers i .cancelled) j .waiting)
        = some .waiting := by
      rw [lookup_setPhase_self]
      simp [List.lookup]
    simp [execProxyStep, phaseOf, hcd, canDeliver]
  · simp only [callerReturnOf, phaseOf]
    rw [lookup_deliverAll_mem _ _ _ _ (by simp)]
    have hcd : List.lookup j
        (setPhase ((j, .registered) :: setPhase s.callers i .cancelled) j .waiting)
        = some .waiting := by
      rw [lookup_setPhase_self]
      simp [List.lookup]
    simp [hcd, callerReturn]

/-- Claim C3: when a waiting exec-on-demand Scrape caller's context is
cancelled before a result is delivered, the cancellation branch removes
that caller's channel from the waiter set under the mutex and the call
returns no metric families together with
`ErrScrapeTimeoutBeforeExecFinished`; the waiter set afterwards contains
no entry for that caller, and from the resulting quiescent state a
subsequent Scrape with a sufficient deadline still completes: it
registers, wakes the parked worker, and receives the result of a fresh
execution. -/
theorem execProxy_cancel_deregisters_and_recovers
    (s : ProxyState) (i j : Nat) (env : ExecEnv) (r : execProxyScrapeResult)
    (hpark : s.worker = .parked)
    (hw : s.waiters = [i])
    (hpi : phaseOf s i = some .waiting)
    (hj : phaseOf s j = none)
    (hr : (doExec env).2 = .ok r) :
    (runLabels s [.cancel i]).map (fun s2 => s2.waiters.contains i) = some false
    ∧ (runLabels s [.cancel i]).bind (fun s2 => callerReturnOf s2 i)
        = some (none, some errScrapeTimeoutBeforeExecFinished)
    ∧ (runLabels s [.cancel i, .startScrape j, .signal j, .wakeCheck,
                    .execFinish env, .dispatch]).bind (fun s2 => callerReturnOf s2 j)
        = some (r.mfs, r.err) := by
  obtain ⟨s', s₁, s₂, s₃, s₄, s₅, g1, g2, g3, g4, g5, g6, g7, g8, g9⟩ :=
    execProxy_cancel_trace s i j env r hpark hw hpi hj hr
  have e1 : runLabels s [.cancel i] = some s' := by
    simp [runLabels, g1]
  have e2 : runLabels s [.cancel i, .startScrape j, .signal j, .wakeCheck,
      .execFinish env, .dispatch] = some s₅ := by
    simp [runLabels, g1, g4, g5, g6, g7, g8]
  refine ⟨?_, ?_, ?_⟩
  · rw [e1]
    simpa using g2
  · rw [e1]
    simpa using g3
  · rw [e2]
    simpa using g9

/-- Witness for C3: in a concrete state where caller 5 is the sole
waiter and the worker is parked, cancelling caller 5 deregisters it and
returns the timeout error, and a fresh Scrape by caller 9 completes. -/
theorem execProxy_cancel_witness :
    (runLabels cancelState [.cancel 5]).map (fun s2 => s2.waiters.contains 5) = some false
    ∧ (runLabels cancelState [.cancel 5]).bind (fun s2 => callerReturnOf s2 5)
        = some (none, some errScrapeTimeoutBeforeExecFinished)
    ∧ (runLabels cancelState [.cancel 5, .startScrape 9, .signal 9, .wakeCheck,
                    .execFinish envAllOk, .dispatch]).bind (fun s2 => callerReturnOf s2 9)
        = some (resAllOk.mfs, resAllOk.err) :=
  execProxy_cancel_deregisters_and_recovers cancelState 5 9 envAllOk resAllOk
    rfl rfl (by decide) (by decide) rfl

/-- Claim C4 (code bug): the registration-before-signal order does not
prevent lost wakeups, because `execReqCh` is unbuffered and the signal
is sent non-blockingly: in this concrete run the worker serves caller 1,
then caller 2 registers and sends its nudge while the worker is still
between its dispatch and its return to `<-reqCh` (phase `looping`), so
the nudge is dropped; the worker then parks.  In the resulting state
caller 2 is registered and waiting, yet no worker step is enabled and no
remaining caller step can wake the worker: only a brand-new Scrape call
(or caller 2's own context timeout) can ever unblock it, so caller 2's
wakeup is lost, contradicting the claim that its waiter is either in the
worker's snapshot or served by a later iteration. -/
theorem execProxy_lost_wakeup :
    execProxyStep lw0 (.startScrape 1) = some lw1
    ∧ execProxyStep lw1 (.signal 1) = some lw2
    ∧ execProxyStep lw2 .wakeCheck = some lw3
    ∧ execProxyStep lw3 (.execFinish envAllOk) = some lw4
    ∧ execProxyStep lw4 .dispatch = some lw5
    ∧ execProxyStep lw5 (.startScrape 2) = some lw6
    ∧ execProxyStep lw6 (.signal 2) = some lw7
    ∧ lw7.worker = .looping
    ∧ execProxyStep lw7 .park = some lw8
    ∧ lw8.worker = .parked
    ∧ lw8.waiters = [2]
    ∧ phaseOf lw8 2 = some .waiting
    ∧ execProxyStep lw8 .wakeCheck = none
    ∧ execProxyStep lw8 (.execFinish envAllOk) = none
    ∧ execProxyStep lw8 .dispatch = none
    ∧ execProxyStep lw8 .park = none
    ∧ execProxyStep lw8 (.signal 1) = none
    ∧ execProxyStep lw8 (.signal 2) = none := by
  decide

/-- Claim C2 (code bug): when the stdout pipe and the process start
succeed, decoding succeeds, and the kill fails, `doExec` does emit the
unconditional kill (the `kill` event is in its trace) and its
kill-failure branch does store the kill error in `result.err` — but
before returning it logs `derr.Error()` with `derr` nil, so the run
panics with a nil-pointer dereference instead of yielding that
`execProxyScrapeResult`.  (When the decode also failed, the branch
returns normally with the kill error, as the claim says.) -/
theorem doExec_kill_failure_panics :
    (doExec envKillFails).1 = [.pipeOpen, .start, .decode, .kill]
    ∧ (doExec envKillFails).2 = .error .nilDereference
    ∧ (doExec envKillFailsDecodeFails).2
        = .ok { mfs := none, err := some (.mk "os: process already released") } := by
  decide

/-- Claim C10 (code bug): on the kill-failure logging path both exec
workers invoke `Error()` on `derr`, the decode error, which is nil
whenever decoding succeeded; with a failing kill and a successful decode
both `doExec` and the caching worker's iteration therefore panic with a
nil-pointer dereference instead of logging and returning/continuing. -/
theorem killFailureLogging_nil_deref :
    (doExec envKillFailsB).2 = .error .nilDereference
    ∧ execCachingExecer cacheReadyB envKillFailsB = .error .nilDereference := by
  decide

/-- Claim C5 counterexample: an execution whose decode succeeds but
whose kill fails is a failed execution (`execFullSuccess` is false), yet
the caching worker's iteration does not leave the previous cache in
place and carry on — it panics on the nil decode error in the logging
call, so there is no post-state at all, let alone an unchanged one. -/
theorem execCachingExecer_kill_failure_panics :
    execCachingExecer cacheBefore envKillFails = .error .nilDereference
    ∧ execCachingExecer cacheBefore envKillFails ≠ .ok cacheBefore
    ∧ execFullSuccess envKillFails = false := by
  decide

/-- Claim C5 (amended): in the exec-cached worker loop a fully
successful execution replaces the cached family list (with a freshly
allocated one) and sets readiness; a pipe-open, start, or decode failure
leaves the previous cache unchanged, as does a kill failure that follows
a failed decode; a kill failure that follows a successful decode instead
panics in the logging call (see the counterexample), so it is excluded
here.  Readiness is set by an iteration exactly when the iteration is a
full success (so it first fires with the first successful execution and
is never cleared). -/
theorem execCachingExecer_cache_discipline (s : CachedState) (env : ExecEnv) :
    (execFullSuccess env = true →
      execCachingExecer s env
        = .ok { lastResult := env.mfs, lastResultAddr := s.nextAddr,
                nextAddr := s.nextAddr + 1, ready := true })
    ∧ (execFullSuccess env = false → (env.killErr = none ∨ env.derr ≠ none) →
      execCachingExecer s env = .ok s)
    ∧ (∀ s2, execCachingExecer s env = .ok s2 →
      s2.ready = (s.ready || execFullSuccess env)) := by
  rcases env with ⟨p, st, m, d, k⟩
  refine ⟨?_, ?_, ?_⟩
  · intro hfs
    cases p <;> cases st <;> cases d <;> cases k <;>
      simp_all [execCachingExecer, execFullSuccess, goErrorMessage]
  · intro hfs hnk
    cases p <;> cases st <;> cases d <;> cases k <;>
      simp_all [execCachingExecer, execFullSuccess, goErrorMessage]
  · intro s2 h
    cases p <;> cases st <;> cases d <;> cases k <;>
      simp_all [execCachingExecer, execFullSuccess, goErrorMessage]
    simp [← h]

/-- Witness for C5: a successful run replaces the empty initial cache
and fires readiness; a pipe failure leaves the state untouched. -/
theorem execCachingExecer_cache_discipline_witness :
    execCachingExecer cacheBefore envAllOk
      = .ok { lastResult := [mfUp], lastResultAddr := 1, nextAddr := 2, ready := true }
    ∧ execCachingExecer cacheBefore envPipeFails = .ok cacheBefore
    ∧ ({ lastResult := [mfUp], lastResultAddr := 1, nextAddr := 2, ready := true }
        : CachedState).ready = (cacheBefore.ready || execFullSuccess envAllOk) :=
  ⟨(execCachingExecer_cache_discipline cacheBefore envAllOk).1 rfl,
   (execCachingExecer_cache_discipline cacheBefore envPipeFails).2.1 rfl (Or.inl rfl),
   (execCachingExecer_cache_discipline cacheBefore envAllOk).2.2
     { lastResult := [mfUp], lastResultAddr := 1, nextAddr := 2, ready := true } rfl⟩

/-- Claim C6: the exec-cached Scrape waits on the readiness signal or
the caller's context; a context already cancelled before readiness makes
it return the empty list with `ErrScrapeTimeoutBeforeExecFinished`;
after readiness (context live) it returns the cache current at the time
of the read — the stored slice, at its stored address — with a nil
error; before readiness with a live context it keeps blocking. -/
theorem execCachingScrape_readiness (s : CachedState) (pick : Bool) :
    (s.ready = false → execCachingScrape s true pick
        = some (none, [], some errScrapeTimeoutBeforeExecFinished))
    ∧ (s.ready = true → execCachingScrape s false pick
        = some (some s.lastResultAddr, s.lastResult, none))
    ∧ (s.ready = false → execCachingScrape s false pick = none) := by
  refine ⟨?_, ?_, ?_⟩ <;> intro h <;> simp [execCachingScrape, h]

/-- Witness for C6: a not-yet-ready proxy times out under a cancelled
context; a ready proxy returns its cache with no error. -/
theorem execCachingScrape_readiness_witness :
    execCachingScrape notReadyCache true true
      = some (none, [], some errScrapeTimeoutBeforeExecFinished)
    ∧ execCachingScrape readyCache false true = some (some 4, [mfUp], none)
    ∧ execCachingScrape notReadyCache false true = none :=
  ⟨(execCachingScrape_readiness notReadyCache true).1 rfl,
   (execCachingScrape_readiness readyCache true).2.1 rfl,
   (execCachingScrape_readiness notReadyCache true).2.2 rfl⟩

/-- Claim C9 counterexample: the exec-cached Scrape returns the cached
slice itself — the list stored at address 7, which is strictly below the
allocation counter, so no fresh allocation occurred.  Two Scrape calls
served from this same cache generation therefore both return the same
in-memory family list, refuting the claim that every Scrape call returns
freshly allocated values not shared with other calls. -/
theorem execCachingScrape_returns_cache_itself :
    execCachingScrape sharedCache false true = some (some 7, [mfUp], none)
    ∧ sharedCache.lastResultAddr = 7
    ∧ sharedCache.nextAddr = 8 := by
  decide

/-- Claim C9 (amended): exec-cached Scrape calls served from one cache
generation share one in-memory family list: each returns exactly the
stored slice at the stored address, allocating nothing.  Fresh
allocation happens per successful execution, not per scrape: a fully
successful worker iteration installs a list at the previously unused
address `nextAddr`, distinct from the old one. -/
theorem execCachingScrape_sharing (s s2 : CachedState) (env : ExecEnv)
    (hready : s.ready = true)
    (haddr : s.lastResultAddr < s.nextAddr)
    (hfs : execFullSuccess env = true)
    (hstep : execCachingExecer s env = .ok s2) :
    execCachingScrape s false true = some (some s.lastResultAddr, s.lastResult, none)
    ∧ s2.lastResultAddr = s.nextAddr
    ∧ s2.lastResultAddr ≠ s.lastResultAddr := by
  rcases env with ⟨p, st, m, d, k⟩
  cases p <;> cases st <;> cases d <;> cases k <;>
    simp_all [execFullSuccess, execCachingExecer]
  refine ⟨by simp [execCachingScrape, hready], ?_, ?_⟩
  · rw [← hstep]
  · rw [← hstep]
    exact fun hc => absurd hc.symm (Nat.ne_of_lt haddr)

/-- Witness for C9: in the ready generation-7 state, Scrape returns the
stored slice at address 7, and a successful execution installs the next
generation at the fresh address 8. -/
theorem execCachingScrape_sharing_witness :
    execCachingScrape sharedCache false true
      = some (some sharedCache.lastResultAddr, sharedCache.lastResult, none)
    ∧ ({ lastResult := [mfUp], lastResultAddr := 8, nextAddr := 9, ready := true }
        : CachedState).lastResultAddr = sharedCache.nextAddr
    ∧ ({ lastResult := [mfUp], lastResultAddr := 8, nextAddr := 9, ready := true }
        : CachedState).lastResultAddr ≠ sharedCache.lastResultAddr :=
  execCachingScrape_sharing sharedCache
    { lastResult := [mfUp], lastResultAddr := 8, nextAddr := 9, ready := true }
    envAllOk rfl (by decide) rfl rfl

theorem addBackends_isError_of_key (l : List ExporterConfig) (used : List String)
    (e : ExporterConfig) (he : e ∈ l)
    (hk : reverseProxyNameLabel ∈ e.base.labels.map Prod.fst) :
    ∃ err, addBackends l used = .error err := by
  induction l generalizing used with
  | nil => cases he
  | cons hd tl ih =>
    by_cases h1 : hd.isUnknown = true
    · exact ⟨errUnknownExporterType, by simp [addBackends, h1]⟩
    · by_cases h2 : hd.base.name ∈ used
      · exact ⟨errExporterNameUsedTwice, by simp [addBackends, h1, h2]⟩
      · by_cases h3 : reverseProxyNameLabel ∈ hd.base.labels.map Prod.fst
        · exact ⟨errNameFieldOverrideAttempted, by simp [addBackends, h1, h2, h3]⟩
        · have hetl : e ∈ tl := by
            cases he with
            | head => exact absurd hk h3
            | tail _ h => exact h
          obtain ⟨err, herr⟩ := ih (hd.base.name :: used) hetl
          exact ⟨err, by simp [addBackends, h1, h2, h3, herr]⟩

theorem addBackends_key_first (l : List ExporterConfig) (used : List String)
    (e : ExporterConfig)
    (hu : ∀ x ∈ l, x.isUnknown = false)
    (hnd : (used ++ l.map (fun x => x.base.name)).Nodup)
    (he : e ∈ l)
    (hk : reverseProxyNameLabel ∈ e.base.labels.map Prod.fst) :
    addBackends l used = .error errNameFieldOverrideAttempted := by
  induction l generalizing used with
  | nil => cases he
  | cons hd tl ih =>
    have h1 : hd.isUnknown = false := hu hd (List.mem_cons_self hd tl)
    simp only [List.map_cons] at hnd
    have hnd2 : (hd.base.name :: (used ++ tl.map (fun x => x.base.name))).Nodup :=
      (List.perm_middle.nodup_iff).mp hnd
    have h2 : hd.base.name ∉ used := fun hm =>
      (List.nodup_cons.mp hnd2).1 (List.mem_append_left _ hm)
    by_cases h3 : reverseProxyNameLabel ∈ hd.base.labels.map Prod.fst
    · simp [addBackends, h1, h2, h3]
    · have hetl : e ∈ tl := by
        cases he with
        | head => exact absurd hk h3
        | tail _ h => exact h
      have hu2 : ∀ x ∈ tl, x.isUnknown = false := fun x hx =>
        hu x (List.mem_cons_of_mem hd hx)
      have hnd3 : ((hd.base.name :: used) ++ tl.map (fun x => x.base.name)).Nodup := by
        simpa using hnd2
      have hrec := ih (hd.base.name :: used) hu2 hnd3 hetl
      simp [addBackends, h1, h2, h3, hrec]

theorem addBackends_ok_nodup (l : List ExporterConfig) (used : List String)
    (bs : List (List (String × String)))
    (hu : used.Nodup) (h : addBackends l used = .ok bs) :
    (used ++ l.map (fun x => x.base.name)).Nodup := by
  induction l generalizing used bs with
  | nil => simpa using hu
  | cons hd tl ih =>
    by_cases h1 : hd.isUnknown = true
    · simp [addBackends, h1] at h
    · by_cases h2 : hd.base.name ∈ used
      · simp [addBackends, h1, h2] at h
      · by_cases h3 : reverseProxyNameLabel ∈ hd.base.labels.map Prod.fst
        · simp [addBackends, h1, h2, h3] at h
        · cases hrec : addBackends tl (hd.base.name :: used) with
          | error err => simp [addBackends, h1, h2, h3, hrec] at h
          | ok bs2 =>
            have hu2 : (hd.base.name :: used).Nodup := List.nodup_cons.mpr ⟨h2, hu⟩
            have hnd := ih (hd.base.name :: used) bs2 hu2 hrec
            simp only [List.map_cons]
            refine (List.perm_middle.nodup_iff).mpr ?_
            simpa using hnd

theorem addBackends_dup_first (l : List ExporterConfig) (used : List String)
    (huN : used.Nodup)
    (hu : ∀ x ∈ l, x.isUnknown = false)
    (hk : ∀ x ∈ l, reverseProxyNameLabel ∉ x.base.labels.map Prod.fst)
    (hdup : ¬ (used ++ l.map (fun x => x.base.name)).Nodup) :
    addBackends l used = .error errExporterNameUsedTwice := by
  induction l generalizing used with
  | nil => exact absurd (by simpa using huN) hdup
  | cons hd tl ih =>
    have h1 : hd.isUnknown = false := hu hd (List.mem_cons_self hd tl)
    have h3 : reverseProxyNameLabel ∉ hd.base.labels.map Prod.fst :=
      hk hd (List.mem_cons_self hd tl)
    by_cases h2 : hd.base.name ∈ used
    · simp [addBackends, h1, h2]
    · have huN2 : (hd.base.name :: used).Nodup := List.nodup_cons.mpr ⟨h2, huN⟩
      have hu2 : ∀ x ∈ tl, x.isUnknown = false := fun x hx =>
        hu x (List.mem_cons_of_mem hd hx)
      have hk2 : ∀ x ∈ tl, reverseProxyNameLabel ∉ x.base.labels.map Prod.fst :=
        fun x hx => hk x (List.mem_cons_of_mem hd hx)
      have hdup2 : ¬ ((hd.base.name :: used) ++ tl.map (fun x => x.base.name)).Nodup := by
        intro hcon
        apply hdup
        simp only [List.map_cons]
        refine (List.perm_middle.nodup_iff).mpr ?_
        simpa using hcon
      have hrec := ih (hd.base.name :: used) huN2 hu2 hk2 hdup2
      simp [addBackends, h1, h2, h3, hrec]

/-- Claim C7 (amended): any endpoint configuration in which some
backend's additional labels contain the reverse-proxy name label key is
rejected by `NewMetricReverseProxy` — no handler is constructed —
regardless of that backend's `no_rewrite` setting; and when no
earlier-checked misconfiguration pre-empts it (all exporters are of
known type and the names are pairwise distinct) the error is exactly
`ErrNameFieldOverrideAttempted`. -/
theorem newMetricReverseProxy_reserved_label_rejected (cfg : ReverseExporterCfg)
    (e : ExporterConfig) (he : e ∈ cfg.exporters)
    (hk : reverseProxyNameLabel ∈ e.base.labels.map Prod.fst) :
    isConfigError (NewMetricReverseProxy cfg) = true
    ∧ ((∀ x ∈ cfg.exporters, x.isUnknown = false) →
       (cfg.exporters.map (fun x => x.base.name)).Nodup →
       NewMetricReverseProxy cfg = .error errNameFieldOverrideAttempted) := by
  constructor
  · obtain ⟨err, herr⟩ := addBackends_isError_of_key cfg.exporters [] e he hk
    simp [NewMetricReverseProxy, herr, isConfigError]
  · intro hu hnd
    have herr := addBackends_key_first cfg.exporters [] e hu (by simpa using hnd) he hk
    simp [NewMetricReverseProxy, herr]

/-- Witness for C7: a backend with `no_rewrite = true` whose labels
contain `exported_instance` is rejected with
`ErrNameFieldOverrideAttempted`. -/
theorem newMetricReverseProxy_reserved_label_rejected_witness :
    isConfigError (NewMetricReverseProxy cfgReserved) = true
    ∧ NewMetricReverseProxy cfgReserved = .error errNameFieldOverrideAttempted :=
  ⟨(newMetricReverseProxy_reserved_label_rejected cfgReserved
      (.exec { name := "node", noRewrite := true,
               labels := [("exported_instance", "x")] } "/usr/bin/exporter" [])
      (by decide) (by decide)).1,
   (newMetricReverseProxy_reserved_label_rejected cfgReserved
      (.exec { name := "node", noRewrite := true,
               labels := [("exported_instance", "x")] } "/usr/bin/exporter" [])
      (by decide) (by decide)).2 (by decide) (by decide)⟩

/-- Claim C7 counterexample: a configuration whose sole backend both is
of unknown type and carries the reserved label key fails with
`ErrUnknownExporterType`, not `ErrNameFieldOverrideAttempted` — the type
switch runs before the label check — so the claim's universally stated
choice of error is wrong even though construction does fail. -/
theorem newMetricReverseProxy_reserved_label_other_error :
    NewMetricReverseProxy cfgReservedUnknown = .error errUnknownExporterType
    ∧ NewMetricReverseProxy cfgReservedUnknown ≠ .error errNameFieldOverrideAttempted
    ∧ reverseProxyNameLabel ∈
        ((ExporterConfig.unknown { name := "a", noRewrite := false,
                                   labels := [("exported_instance", "x")] }
          ).base.labels.map Prod.fst) := by
  decide

/-- Claim C8 (amended): any endpoint configuration with two same-named
backends is rejected by `NewMetricReverseProxy` — no handler is
constructed — and when no earlier-checked misconfiguration pre-empts the
duplicate-name check (all exporters are of known type and none carries
the reserved label key) the error is exactly `ErrExporterNameUsedTwice`;
consequently every successfully constructed endpoint has pairwise
distinct backend names. -/
theorem newMetricReverseProxy_duplicate_name_rejected (cfg : ReverseExporterCfg) :
    (¬ (cfg.exporters.map (fun x => x.base.name)).Nodup →
      isConfigError (NewMetricReverseProxy cfg) = true)
    ∧ (¬ (cfg.exporters.map (fun x => x.base.name)).Nodup →
       (∀ x ∈ cfg.exporters, x.isUnknown = false) →
       (∀ x ∈ cfg.exporters, reverseProxyNameLabel ∉ x.base.labels.map Prod.fst) →
      NewMetricReverseProxy cfg = .error errExporterNameUsedTwice)
    ∧ (∀ h2, NewMetricReverseProxy cfg = .ok h2 →
      (cfg.exporters.map (fun x => x.base.name)).Nodup) := by
  refine ⟨?_, ?_, ?_⟩
  · intro hdup
    cases hres : addBackends cfg.exporters [] with
    | error err => simp [NewMetricReverseProxy, hres, isConfigError]
    | ok bs =>
      exact absurd
        (by simpa using addBackends_ok_nodup cfg.exporters [] bs List.nodup_nil hres)
        hdup
  · intro hdup hu hk
    have herr := addBackends_dup_first cfg.exporters [] List.nodup_nil hu hk
      (by simpa using hdup)
    simp [NewMetricReverseProxy, herr]
  · intro h2 hok
    cases hres : addBackends cfg.exporters [] with
    | error err => simp [NewMetricReverseProxy, hres] at hok
    | ok bs =>
      simpa using addBackends_ok_nodup cfg.exporters [] bs List.nodup_nil hres

/-- Witness for C8: two backends named "a" are rejected with
`ErrExporterNameUsedTwice`; a successfully constructed two-backend
endpoint has distinct names. -/
theorem newMetricReverseProxy_duplicate_name_rejected_witness :
    isConfigError (NewMetricReverseProxy cfgDupName) = true
    ∧ NewMetricReverseProxy cfgDupName = .error errExporterNameUsedTwice
    ∧ (cfgOkNames.exporters.map (fun x => x.base.name)).Nodup :=
  ⟨(newMetricReverseProxy_duplicate_name_rejected cfgDupName).1 (by decide),
   (newMetricReverseProxy_duplicate_name_rejected cfgDupName).2.1
      (by decide) (by decide) (by decide),
   (newMetricReverseProxy_duplicate_name_rejected cfgOkNames).2.2
      { metricPath := "/metrics",
        backendLabels := [[("exported_instance", "a")],
                          [("exported_instance", "b"), ("env", "prod")]],
        basicAuth := true }
      (by decide)⟩

/-- Claim C8 counterexample: a configuration in which backends two and
three both carry the name "b" fails with `ErrNameFieldOverrideAttempted`
— backend one's reserved label is found first — not with
`ErrExporterNameUsedTwice`, so the claim's universally stated choice of
error is wrong even though construction does fail. -/
theorem newMetricReverseProxy_duplicate_name_other_error :
    NewMetricReverseProxy cfgDupPreempted = .error errNameFieldOverrideAttempted
    ∧ NewMetricReverseProxy cfgDupPreempted ≠ .error errExporterNameUsedTwice
    ∧ ¬ (cfgDupPreempted.exporters.map (fun x => x.base.name)).Nodup := by
  decide
